import Mathlib

/-!
Verification of the rule-based flagging engine of the Transaction Analysis app
(`src/app.py`).  The engine receives a cleaned batch of transaction records,
optionally restricts it to a date window, runs five detectors over the
restricted batch, and combines their verdicts by logical OR into one boolean
flag per record, together with summary metrics.

Shallow embedding conventions:
* a pandas row becomes a `Record`; the cleaned `amount` column is a rational
  number (cleaning guarantees a finite numeric amount), `account_id`,
  `type` and `merchant` are strings, and `date` is `Option Int` — the
  timestamp in Unix seconds, `none` standing for pandas `NaT`;
* the sidebar inputs become a `Config`; the two `number_input` widgets have
  `min_value=0, step=1`, so the thresholds are naturals with `0` meaning
  "disabled"; the two optional `date_input` widgets are `Option Int`;
* the dataframe is a `List Record` (order-stable, duplicates allowed);
  `df.loc[pred, 'flagged'] = True` blocks become per-record boolean
  detector functions joined by `||`, which is exactly the effect of the
  successive in-place writes: each block can only turn the flag on;
* Python code that can raise is modelled with `Option`: the unguarded
  division `len(flagged_df)/total_txn` of line 129 returns `none` exactly
  when Python would raise `ZeroDivisionError`, and the pandas mean/max/min
  of an empty column (which yield NaN) are likewise `none`.
-/

/-- One cleaned transaction row: canonical fields after the column mapping
and data-cleaning steps of `app.py` (lines 50–71).  `date = none` models a
pandas `NaT` timestamp; otherwise the timestamp in Unix seconds. -/
structure Record where
  amount : ℚ
  account_id : String
  type : String
  merchant : String
  date : Option Int
deriving DecidableEq

/-- Sidebar configuration (lines 74–79): amount threshold and rapid-count
threshold are naturals with 0 = disabled (`number_input` with
`min_value=0, step=1`), risky merchants is the multiselect list, and the
optional date bounds are Unix-second timestamps. -/
structure Config where
  user_threshold : ℕ
  rapid_txn_threshold : ℕ
  risky_merchants : List String
  start_date : Option Int
  end_date : Option Int
deriving DecidableEq

/-- Whether some record of the batch has a non-null timestamp: the embedding
of `not df['date'].isna().all()`. -/
def hasAnyDate (df : List Record) : Bool :=
  df.any fun r => r.date.isSome

/-- The row predicate of the date filter, line 83:
`(df['date'] >= start) & (df['date'] <= end)`.  A `NaT` timestamp compares
false on both sides in pandas, so a null date never passes. -/
def inRange (s e : Int) (d : Option Int) : Bool :=
  match d with
  | some t => decide (s ≤ t) && decide (t ≤ e)
  | none => false

/-- Date filter, lines 82–84: applied only when both bounds are selected and
at least one timestamp is non-null; otherwise the batch is returned
unchanged. -/
def dateFilter (cfg : Config) (df : List Record) : List Record :=
  match cfg.start_date, cfg.end_date with
  | some s, some e =>
      if hasAnyDate df then df.filter fun r => inRange s e r.date else df
  | _, _ => df

/-- High-value detector, lines 103–104: when the threshold is positive, flag
`amount > user_threshold`. -/
def highValueFlagged (cfg : Config) (r : Record) : Bool :=
  decide (0 < cfg.user_threshold) && decide ((cfg.user_threshold : ℚ) < r.amount)

/-- The non-null timestamps of one account's records, in batch order
(the operand of `groupby('account_id')['date']` restricted to one group;
null timestamps are kept aside because after
`sort_values(['account_id','date'])` the `NaT` rows sort last in the group
and every diff they take part in is `NaT → inf`, hence never rapid). -/
def acctDates (df : List Record) (a : String) : List Int :=
  (df.filter fun r => r.account_id == a).filterMap fun r => r.date

/-- Insertion of a value into an ascending list, auxiliary to `sortAsc`. -/
def insertAsc (x : Int) : List Int → List Int
  | [] => [x]
  | y :: ys => if x ≤ y then x :: y :: ys else y :: insertAsc x ys

/-- Ascending insertion sort of the timestamps: the (stable) per-account
effect of `sort_values(['account_id','date'])`, line 108. -/
def sortAsc (l : List Int) : List Int :=
  l.foldr insertAsc []

/-- Consecutive differences of a list: `groupby(...)['date'].diff()` within
one account, line 109, restricted to the pairs of non-null timestamps.  The
first row of a group has no predecessor (`NaN → inf` in the source), so it
contributes no entry here — an infinite delta is never `< 3600` anyway. -/
def deltas : List Int → List Int
  | [] => []
  | [_] => []
  | a :: b :: rest => (b - a) :: deltas (b :: rest)

/-- Number of rapid deltas of one account, lines 109–111: consecutive gaps of
the ascending timestamps that are strictly below 3600 seconds. -/
def rapidCount (df : List Record) (a : String) : ℕ :=
  (deltas (sortAsc (acctDates df a))).countP fun d => decide (d < 3600)

/-- Rapid-succession detector, lines 107–112: active when the rapid threshold
is positive and some timestamp is non-null; it flags a record exactly when
the record's account accumulates at least `rapid_txn_threshold` rapid
deltas (`df['account_id'].isin(rapid_ids)` — the whole account is
escalated, not only the rapid rows). -/
def rapidFlagged (cfg : Config) (df : List Record) (r : Record) : Bool :=
  decide (0 < cfg.rapid_txn_threshold) && hasAnyDate df &&
    decide (cfg.rapid_txn_threshold ≤ rapidCount df r.account_id)

/-- The amounts of one account's records: the group seen by
`groupby('account_id')['amount']`, lines 115–116. -/
def acctAmounts (df : List Record) (a : String) : List ℚ :=
  (df.filter fun r => r.account_id == a).map fun r => r.amount

/-- Per-account mean amount, `transform('mean')` of line 115.  A record's own
account always has at least its own record, so the division is by a
positive count whenever the value is used. -/
def acctMean (df : List Record) (a : String) : ℚ :=
  let xs := acctAmounts df a
  xs.sum / xs.length

/-- Per-account sample variance: the square of `transform('std')` of
line 116.  Pandas `std` uses `ddof=1`, yielding `NaN` for a single-record
group, which line 116 replaces by 0 via `fillna(0)`; a zero-variance group
already gives 0. -/
def acctVar (df : List Record) (a : String) : ℚ :=
  let xs := acctAmounts df a
  if xs.length ≤ 1 then 0
  else ((xs.map fun x => (x - acctMean df a) ^ 2).sum) / ((xs.length : ℚ) - 1)

/-- Statistical-outlier detector, line 117 (always active):
`amount > acct_mean + 2*acct_std` where `acct_std = sqrt(acctVar)`.
Square roots do not exist in ℚ, so the test is expressed by the equivalent
squared comparison: for `v ≥ 0`, `a > m + 2·√v ↔ a > m ∧ (a-m)² > 4·v`
(proved below as `outlierFlagged_iff_sqrt`). -/
def outlierFlagged (df : List Record) (r : Record) : Bool :=
  decide (acctMean df r.account_id < r.amount) &&
    decide (4 * acctVar df r.account_id < (r.amount - acctMean df r.account_id) ^ 2)

/-- Weekday of a Unix-second timestamp in the Monday=0 convention of
`pandas.Series.dt.weekday`:  1970-01-01 was a Thursday (weekday 3). -/
def weekday (t : Int) : Int :=
  (t.fdiv 86400 + 3).emod 7

/-- Weekend detector, lines 120–122: active when some timestamp is non-null;
flags every record whose weekday index is ≥ 5 (Saturday or Sunday).  A
`NaT` row yields `NaN >= 5`, which is false in pandas, so a null date is
never flagged. -/
def weekendFlagged (df : List Record) (r : Record) : Bool :=
  hasAnyDate df &&
    match r.date with
    | some t => decide (5 ≤ weekday t)
    | none => false

/-- Risky-merchant detector, lines 125–126: guarded by
`if risky_merchants:` (a non-empty selection), it flags the records whose
merchant is in the selected list. -/
def riskyFlagged (cfg : Config) (r : Record) : Bool :=
  !cfg.risky_merchants.isEmpty && cfg.risky_merchants.contains r.merchant

/-- Final flag of one record of the (already date-filtered) batch `df`:
the five detector blocks of lines 100–126 each only ever set
`flagged = True`, so their combined effect is the logical OR of the five
per-record verdicts. -/
def flagged (cfg : Config) (df : List Record) (r : Record) : Bool :=
  highValueFlagged cfg r || rapidFlagged cfg df r || outlierFlagged df r ||
    weekendFlagged df r || riskyFlagged cfg r

/-- One full evaluation of the engine on a raw batch: apply the date filter,
then pair every surviving record with its final flag (lines 82–126). -/
def evalFlags (cfg : Config) (records : List Record) : List (Record × Bool) :=
  let df := dateFilter cfg records
  df.map fun r => (r, flagged cfg df r)

/-- Total transaction count, line 88 (`len(df)` after the date filter). -/
def totalTxn (df : List Record) : ℕ :=
  df.length

/-- Mean amount of the filtered batch, line 89.  Pandas returns `NaN` on an
empty column; modelled as `none`. -/
def avgAmount (df : List Record) : Option ℚ :=
  if df.length = 0 then none
  else some ((df.map fun r => r.amount).sum / df.length)

/-- Maximum amount of the filtered batch, line 90; `none` models the `NaN`
of an empty column. -/
def maxAmount (df : List Record) : Option ℚ :=
  match df.map fun r => r.amount with
  | [] => none
  | x :: xs => some (xs.foldl max x)

/-- Minimum amount of the filtered batch, line 91; `none` models the `NaN`
of an empty column. -/
def minAmount (df : List Record) : Option ℚ :=
  match df.map fun r => r.amount with
  | [] => none
  | x :: xs => some (xs.foldl min x)

/-- Number of flagged records of the evaluation, line 129 (`len(flagged_df)`). -/
def flaggedCount (cfg : Config) (records : List Record) : ℕ :=
  (evalFlags cfg records).countP fun p => p.2

/-- Flagged percentage of line 129: `len(flagged_df)/total_txn*100`.  The
division is unguarded in the source; Python raises `ZeroDivisionError`
when `total_txn = 0`, modelled by `none`. -/
def flaggedPct (fc total : ℕ) : Option ℚ :=
  if total = 0 then none else some ((fc : ℚ) / total * 100)

/-- Summary metrics of one evaluation (lines 86–96 and 129). -/
structure Metrics where
  total_txn : ℕ
  avg_amount : Option ℚ
  max_amount : Option ℚ
  min_amount : Option ℚ
  flagged_count : ℕ
  flagged_pct : Option ℚ
deriving DecidableEq

/-- The metrics the app reports for one evaluation: counts and amount
statistics over the date-filtered batch, flagged count and percentage. -/
def metrics (cfg : Config) (records : List Record) : Metrics :=
  let df := dateFilter cfg records
  { total_txn := totalTxn df
    avg_amount := avgAmount df
    max_amount := maxAmount df
    min_amount := minAmount df
    flagged_count := flaggedCount cfg records
    flagged_pct := flaggedPct (flaggedCount cfg records) (totalTxn df) }

/-!
Helper lemmas shared by the claim theorems.
-/

/-- When every timestamp of the batch is null, `hasAnyDate` is false. -/
theorem hasAnyDate_eq_false {df : List Record} (h : ∀ x ∈ df, x.date = none) :
    hasAnyDate df = false := by
  simp only [hasAnyDate, List.any_eq_false]
  intro x hx
  simp [h x hx]

/-- The date filter is the identity when every timestamp is null. -/
theorem dateFilter_of_no_dates (cfg : Config) {df : List Record}
    (h : ∀ x ∈ df, x.date = none) : dateFilter cfg df = df := by
  unfold dateFilter
  split
  · rw [hasAnyDate_eq_false h]
    simp
  · rfl

/-- The per-account sample variance is nonnegative. -/
theorem acctVar_nonneg (df : List Record) (a : String) : 0 ≤ acctVar df a := by
  simp only [acctVar]
  split
  · exact le_refl 0
  · rename_i h
    apply div_nonneg
    · apply List.sum_nonneg
      intro x hx
      obtain ⟨y, _, rfl⟩ := List.mem_map.mp hx
      positivity
    · have : 2 ≤ (acctAmounts df a).length := by omega
      have : (2 : ℚ) ≤ ((acctAmounts df a).length : ℚ) := by exact_mod_cast this
      linarith

/-- Key algebraic bridge for the statistical-outlier detector: over the reals,
`m + 2·√v < a` is equivalent to the squared test `m < a ∧ 4·v < (a-m)²`
used by `outlierFlagged`, provided `v ≥ 0`. -/
theorem lt_add_two_sqrt_iff (a m v : ℚ) (hv : 0 ≤ v) :
    ((m : ℝ) + 2 * Real.sqrt (v : ℝ) < (a : ℝ)) ↔ (m < a ∧ 4 * v < (a - m) ^ 2) := by
  have hs : (0 : ℝ) ≤ Real.sqrt (v : ℝ) := Real.sqrt_nonneg _
  have hsq : Real.sqrt (v : ℝ) ^ 2 = (v : ℝ) := Real.sq_sqrt (by exact_mod_cast hv)
  constructor
  · intro h
    have hma : (m : ℝ) < (a : ℝ) := by nlinarith
    have h4 : (4 : ℝ) * v < ((a : ℝ) - m) ^ 2 := by nlinarith
    exact ⟨by exact_mod_cast hma, by exact_mod_cast h4⟩
  · rintro ⟨h1, h2⟩
    have h1' : (m : ℝ) < (a : ℝ) := by exact_mod_cast h1
    have h2' : (4 : ℝ) * v < ((a : ℝ) - m) ^ 2 := by exact_mod_cast h2
    nlinarith

/-- The Boolean outlier test of the embedding agrees with the source's
real-valued test `amount > acct_mean + 2*acct_std`, `acct_std = √acctVar`. -/
theorem outlierFlagged_iff_sqrt (df : List Record) (r : Record) :
    outlierFlagged df r = true ↔
      (acctMean df r.account_id : ℝ)
          + 2 * Real.sqrt ((acctVar df r.account_id : ℝ)) < (r.amount : ℝ) := by
  rw [lt_add_two_sqrt_iff _ _ _ (acctVar_nonneg df r.account_id)]
  simp [outlierFlagged]

/-!
Concrete fixtures used by witnesses and counterexamples.
-/

/-- Account-A record of 100 at Monday 2024-01-01 10:00 UTC. -/
def recA1 : Record := ⟨100, "A", "payment", "m1", some 1704103200⟩

/-- Account-A record of 150 at Monday 2024-01-01 10:10 UTC. -/
def recA2 : Record := ⟨150, "A", "payment", "m1", some 1704103800⟩

/-- Account-A record of 140 at Monday 2024-01-01 10:20 UTC. -/
def recA3 : Record := ⟨140, "A", "payment", "m1", some 1704104400⟩

/-- The three-record account-A scenario of the spec. -/
def recsC1 : List Record := [recA1, recA2, recA3]

/-- Configuration with only the rapid detector enabled, threshold 2. -/
def cfgC1 : Config := ⟨0, 2, [], none, none⟩

/-- Account-A record with amount `q` and a null timestamp. -/
def mkNullA (q : ℚ) : Record := ⟨q, "A", "payment", "shop", none⟩

/-- Six account-A records, amounts 0,0,0,0,0,6, all timestamps null. -/
def recsC3 : List Record := [mkNullA 0, mkNullA 0, mkNullA 0, mkNullA 0, mkNullA 0, mkNullA 6]

/-- Configuration with every optional detector disabled: both thresholds 0,
no risky merchants, no date bounds. -/
def cfgOff : Config := ⟨0, 0, [], none, none⟩

/-- A record dated 1970-01-02, outside the `[0, 0]` date window. -/
def recC2 : Record := ⟨50, "A", "payment", "shop", some 86400⟩

/-- Date window `[0, 0]` (both bounds 1970-01-01), detectors disabled. -/
def cfgC2 : Config := ⟨0, 0, [], some 0, some 0⟩

/-- A record dated Saturday 2024-01-06 UTC. -/
def recSat : Record := ⟨10, "A", "payment", "shop", some 1704499200⟩

/-- An account-A record with a null timestamp. -/
def recNullA : Record := ⟨999, "A", "payment", "shop", none⟩

/-- Two rapid account-A records plus one null-timestamp account-A record. -/
def recsC9 : List Record := [recA1, recA2, recNullA]

/-- Configuration with only the rapid detector enabled, threshold 1. -/
def cfgC9 : Config := ⟨0, 1, [], none, none⟩

/-- Date window `[0, 9999999999]` containing `recA1` but (vacuously) not the
null timestamp of `recNullA`. -/
def cfgC10 : Config := ⟨0, 0, [], some 0, some 9999999999⟩

/-!
Claim theorems.
-/

/-- C1: the rapid-succession detector flags nothing when the threshold is 0
or every timestamp is null; when active it flags a record exactly when its
account accumulates at least `rapid_txn_threshold` consecutive gaps of the
ascending-sorted timestamps strictly below 3600 s; its verdict depends on a
record only through the account (the whole account is escalated); two equal
timestamps produce a gap of 0, which counts as rapid; and on the
three-record account-A scenario (10:00, 10:10, 10:20, threshold 2) the
rapid count is 2 and all three records are flagged. -/
theorem C1_rapid_succession :
    (∀ cfg df r, cfg.rapid_txn_threshold = 0 → rapidFlagged cfg df r = false)
    ∧ (∀ cfg df r, (∀ x ∈ df, x.date = none) → rapidFlagged cfg df r = false)
    ∧ (∀ cfg df r, rapidFlagged cfg df r = true ↔
        0 < cfg.rapid_txn_threshold ∧ hasAnyDate df = true ∧
          cfg.rapid_txn_threshold ≤ rapidCount df r.account_id)
    ∧ (∀ cfg df r s, r.account_id = s.account_id →
        rapidFlagged cfg df r = rapidFlagged cfg df s)
    ∧ (∀ a ty m q₁ q₂ t,
        rapidCount [⟨q₁, a, ty, m, some t⟩, ⟨q₂, a, ty, m, some t⟩] a = 1)
    ∧ rapidCount recsC1 "A" = 2
    ∧ (evalFlags cfgC1 recsC1).map (fun p => p.2) = [true, true, true] := by
  refine ⟨?_, ?_, ?_, ?_, ?_, ?_, ?_⟩
  · intro cfg df r h
    simp [rapidFlagged, h]
  · intro cfg df r h
    simp [rapidFlagged, hasAnyDate_eq_false h]
  · intro cfg df r
    simp [rapidFlagged, and_assoc]
  · intro cfg df r s h
    simp only [rapidFlagged, h]
  · intro a ty m q₁ q₂ t
    simp [rapidCount, acctDates, sortAsc, insertAsc, deltas,
      List.countP_cons, List.countP_nil]
  · decide
  · norm_num [evalFlags, dateFilter, flagged, highValueFlagged, rapidFlagged,
      outlierFlagged, weekendFlagged, riskyFlagged, hasAnyDate, acctMean, acctVar,
      acctAmounts, rapidCount, acctDates, sortAsc, insertAsc, deltas, weekday,
      recsC1, recA1, recA2, recA3, cfgC1]

/-- Witness for C1: the hypotheses of the universally quantified conjuncts are
dischargeable at concrete inputs. -/
theorem C1_rapid_succession_witness :
    rapidFlagged cfgOff recsC1 recA1 = false
    ∧ rapidFlagged cfgC1 [recNullA] recA1 = false
    ∧ rapidFlagged cfgC1 recsC1 recA1 = rapidFlagged cfgC1 recsC1 recA2 :=
  ⟨C1_rapid_succession.1 cfgOff recsC1 recA1 rfl,
   C1_rapid_succession.2.1 cfgC1 [recNullA] recA1 (by decide),
   C1_rapid_succession.2.2.2.1 cfgC1 recsC1 recA1 recA2 rfl⟩

/-- C5: the high-value detector flags a record iff the threshold is positive
and the amount strictly exceeds it; it flags nothing when the threshold is
0 (the only way the `min_value=0` integer widget makes it non-positive); an
amount exactly equal to the threshold is not flagged; and the verdict
depends only on the record's own amount, not on other records. -/
theorem C5_high_value :
    (∀ cfg r, highValueFlagged cfg r = true ↔
        0 < cfg.user_threshold ∧ (cfg.user_threshold : ℚ) < r.amount)
    ∧ (∀ cfg r, cfg.user_threshold = 0 → highValueFlagged cfg r = false)
    ∧ (∀ cfg r, r.amount = (cfg.user_threshold : ℚ) → highValueFlagged cfg r = false)
    ∧ (∀ cfg r s, r.amount = s.amount →
        highValueFlagged cfg r = highValueFlagged cfg s) := by
  refine ⟨?_, ?_, ?_, ?_⟩
  · intro cfg r
    simp [highValueFlagged]
  · intro cfg r h
    simp [highValueFlagged, h]
  · intro cfg r h
    simp [highValueFlagged, h]
  · intro cfg r s h
    simp only [highValueFlagged, h]

/-- Witness for C5: the hypotheses of the quantified conjuncts are
dischargeable at concrete inputs. -/
theorem C5_high_value_witness :
    highValueFlagged cfgOff recA1 = false
    ∧ highValueFlagged ⟨100, 0, [], none, none⟩ recA1 = false
    ∧ highValueFlagged cfgC1 recA1 = highValueFlagged cfgC1 recA1 :=
  ⟨C5_high_value.2.1 cfgOff recA1 rfl,
   C5_high_value.2.2.1 ⟨100, 0, [], none, none⟩ recA1 (by norm_num [recA1]),
   C5_high_value.2.2.2 cfgC1 recA1 recA1 rfl⟩

/-- C8: the weekend detector flags nothing when every timestamp is null;
when at least one timestamp exists it flags a record with a non-null
timestamp exactly when its weekday index (Monday = 0) is at least 5; and a
record whose own timestamp is null is never flagged via this path. -/
theorem C8_weekend :
    (∀ df r, (∀ x ∈ df, x.date = none) → weekendFlagged df r = false)
    ∧ (∀ df r t, hasAnyDate df = true → r.date = some t →
        (weekendFlagged df r = true ↔ 5 ≤ weekday t))
    ∧ (∀ df r, r.date = none → weekendFlagged df r = false) := by
  refine ⟨?_, ?_, ?_⟩
  · intro df r h
    simp [weekendFlagged, hasAnyDate_eq_false h]
  · intro df r t h1 h2
    simp [weekendFlagged, h1, h2]
  · intro df r h
    simp [weekendFlagged, h]

/-- Witness for C8: a Saturday record is flagged, and the disabled cases are
dischargeable at concrete inputs. -/
theorem C8_weekend_witness :
    weekendFlagged recsC3 recNullA = false
    ∧ weekendFlagged [recSat] recSat = true
    ∧ weekendFlagged recsC1 recNullA = false :=
  ⟨C8_weekend.1 recsC3 recNullA (by decide),
   (C8_weekend.2.1 [recSat] recSat 1704499200 (by decide) rfl).mpr (by decide),
   C8_weekend.2.2 recsC1 recNullA rfl⟩

/-- C9: the rapid-succession verdict is a pure function of the account, so an
account that trips the detector has every one of its records flagged, null
timestamp or not; a null-timestamp record contributes nothing to an
account's rapid count; and in a concrete batch with two rapid account-A
records plus a null-timestamp account-A record, the null-timestamp record
is flagged too. -/
theorem C9_rapid_escalation_null_ts :
    (∀ cfg df r s, r.account_id = s.account_id →
        rapidFlagged cfg df r = true → rapidFlagged cfg df s = true)
    ∧ (∀ df a x, x.date = none → rapidCount (x :: df) a = rapidCount df a)
    ∧ rapidFlagged cfgC9 recsC9 recNullA = true := by
  refine ⟨?_, ?_, ?_⟩
  · intro cfg df r s h hr
    rw [rapidFlagged, ← h, ← rapidFlagged, hr]
  · intro df a x h
    simp only [rapidCount, acctDates, List.filter_cons]
    split
    · simp [List.filterMap_cons, h]
    · rfl
  · decide

/-- Witness for C9: the quantified conjuncts are dischargeable at concrete
inputs. -/
theorem C9_rapid_escalation_null_ts_witness :
    rapidFlagged cfgC9 recsC9 recNullA = true
    ∧ rapidCount (recNullA :: recsC1) "A" = rapidCount recsC1 "A" :=
  ⟨C9_rapid_escalation_null_ts.1 cfgC9 recsC9 recA1 recNullA rfl (by decide),
   C9_rapid_escalation_null_ts.2.1 recsC1 "A" recNullA rfl⟩

/-- C10: when the date filter is actually applied (both bounds present and at
least one non-null timestamp in the batch), a record whose own timestamp is
null is removed from the filtered batch. -/
theorem C10_filter_removes_null_ts (cfg : Config) (df : List Record)
    (r : Record) (s e : Int) (h1 : cfg.start_date = some s)
    (h2 : cfg.end_date = some e) (h3 : hasAnyDate df = true)
    (h4 : r.date = none) : r ∉ dateFilter cfg df := by
  simp [dateFilter, h1, h2, h3, List.mem_filter, inRange, h4]

/-- Witness for C10: with window `[0, 9999999999]` over a batch holding one
dated and one null-timestamp account-A record, the null-timestamp record is
filtered out. -/
theorem C10_filter_removes_null_ts_witness :
    recNullA ∉ dateFilter cfgC10 [recA1, recNullA] :=
  C10_filter_removes_null_ts cfgC10 [recA1, recNullA] recNullA 0 9999999999
    rfl rfl (by decide) rfl

/-- C6: with both bounds present and at least one non-null timestamp in the
batch, the date filter keeps exactly the records whose timestamp is
non-null and lies in the inclusive window `[start, end]` (so a timestamp
equal to either bound is retained); with a missing bound, or with every
timestamp null, the batch is returned unchanged; and with the filter
actually applied and `start > end` the result is empty, without error. -/
theorem C6_date_filter :
    (∀ cfg df s e r, cfg.start_date = some s → cfg.end_date = some e →
        hasAnyDate df = true →
        (r ∈ dateFilter cfg df ↔ r ∈ df ∧ ∃ t, r.date = some t ∧ s ≤ t ∧ t ≤ e))
    ∧ (∀ cfg df, cfg.start_date = none ∨ cfg.end_date = none →
        dateFilter cfg df = df)
    ∧ (∀ cfg df, (∀ x ∈ df, x.date = none) → dateFilter cfg df = df)
    ∧ (∀ cfg df s e, cfg.start_date = some s → cfg.end_date = some e →
        hasAnyDate df = true → e < s → dateFilter cfg df = []) := by
  refine ⟨?_, ?_, ?_, ?_⟩
  · intro cfg df s e r h1 h2 h3
    simp only [dateFilter, h1, h2, h3, if_true, List.mem_filter]
    refine and_congr_right fun _ => ?_
    cases hd : r.date <;> simp [inRange, hd]
  · intro cfg df h
    unfold dateFilter
    split
    · rcases h with h | h <;> simp_all
    · rfl
  · intro cfg df h
    exact dateFilter_of_no_dates cfg h
  · intro cfg df s e h1 h2 h3 hlt
    simp only [dateFilter, h1, h2, h3, if_true]
    rw [List.filter_eq_nil_iff]
    intro a _
    cases hd : a.date <;> simp [inRange, hd]
    omega

/-- Witness for C6: the quantified conjuncts are dischargeable at concrete
inputs — `recA1` sits exactly on the start bound of the window
`[1704103200, 9999999999]` and is retained. -/
theorem C6_date_filter_witness :
    (recA1 ∈ dateFilter ⟨0, 0, [], some 1704103200, some 9999999999⟩ [recA1, recNullA]
      ↔ recA1 ∈ [recA1, recNullA]
          ∧ ∃ t, recA1.date = some t ∧ 1704103200 ≤ t ∧ t ≤ 9999999999)
    ∧ dateFilter cfgOff recsC1 = recsC1
    ∧ dateFilter cfgC2 recsC3 = recsC3
    ∧ dateFilter ⟨0, 0, [], some 10, some 0⟩ recsC1 = [] :=
  ⟨C6_date_filter.1 ⟨0, 0, [], some 1704103200, some 9999999999⟩ [recA1, recNullA]
      1704103200 9999999999 recA1 rfl rfl (by decide),
   C6_date_filter.2.1 cfgOff recsC1 (Or.inl rfl),
   C6_date_filter.2.2.1 cfgC2 recsC3 (by decide),
   C6_date_filter.2.2.2 ⟨0, 0, [], some 10, some 0⟩ recsC1 10 0 rfl rfl
      (by decide) (by decide)⟩

/-- C7: the final flag is the logical OR of the five detector verdicts, so a
record flagged by any single detector — the outlier detector taken as the
representative — stays flagged in the aggregate; and enlarging the
risky-merchant list (the rest of the configuration unchanged) never
removes a flag, nor does it change the date-filtered batch. -/
theorem C7_aggregation_or_monotone :
    (∀ cfg df r, flagged cfg df r = true ↔
        (highValueFlagged cfg r = true ∨ rapidFlagged cfg df r = true ∨
         outlierFlagged df r = true ∨ weekendFlagged df r = true ∨
         riskyFlagged cfg r = true))
    ∧ (∀ cfg df r, outlierFlagged df r = true → flagged cfg df r = true)
    ∧ (∀ cfg m df r, cfg.risky_merchants ⊆ m → flagged cfg df r = true →
        flagged { cfg with risky_merchants := m } df r = true)
    ∧ (∀ cfg m records,
        dateFilter { cfg with risky_merchants := m } records
          = dateFilter cfg records) := by
  refine ⟨?_, ?_, ?_, ?_⟩
  · intro cfg df r
    simp [flagged, or_assoc]
  · intro cfg df r h
    simp [flagged, h]
  · intro cfg m df r hsub h
    simp only [flagged, Bool.or_eq_true, or_assoc] at h ⊢
    rcases h with h | h | h | h | h
    · exact Or.inl h
    · exact Or.inr (Or.inl h)
    · exact Or.inr (Or.inr (Or.inl h))
    · exact Or.inr (Or.inr (Or.inr (Or.inl h)))
    · refine Or.inr (Or.inr (Or.inr (Or.inr ?_)))
      simp only [riskyFlagged, Bool.and_eq_true, Bool.not_eq_true'] at h ⊢
      obtain ⟨_, h2⟩ := h
      have hmem : r.merchant ∈ m := hsub (by simpa using h2)
      refine ⟨?_, by simpa using hmem⟩
      cases m
      · cases hmem
      · rfl
  · intro cfg m records
    rfl

/-- Witness for C7: the hypotheses of the quantified conjuncts are
dischargeable at concrete inputs — `recNullA` is flagged under the
merchant list `["shop"]` and stays flagged under `["shop", "bar"]`. -/
theorem C7_aggregation_or_monotone_witness :
    flagged cfgOff recsC3 (mkNullA 6) = true
    ∧ flagged { cfgOff with risky_merchants := ["shop", "bar"] } [recNullA] recNullA
        = true :=
  ⟨C7_aggregation_or_monotone.2.1 cfgOff recsC3 (mkNullA 6)
      (by norm_num [outlierFlagged, acctMean, acctVar, acctAmounts, recsC3, mkNullA]),
   C7_aggregation_or_monotone.2.2.1 { cfgOff with risky_merchants := ["shop"] }
      ["shop", "bar"] [recNullA] recNullA (by intro x hx; simp_all)
      (by norm_num [flagged, highValueFlagged, rapidFlagged, outlierFlagged,
        weekendFlagged, riskyFlagged, hasAnyDate, acctMean, acctVar, acctAmounts,
        recNullA, cfgOff])⟩

/-- C3 counterexample: with both thresholds 0, no risky merchants, no date
bounds and every timestamp null, the engine still flags one of the six
account-A records with amounts 0,0,0,0,0,6 — the record of amount 6
exceeds its account mean 1 plus twice the sample standard deviation √6 —
because the statistical-outlier detector has no disabling condition. -/
theorem C3_counterexample : flaggedCount cfgOff recsC3 = 1 := by
  norm_num [flaggedCount, evalFlags, dateFilter, flagged, highValueFlagged,
    rapidFlagged, outlierFlagged, weekendFlagged, riskyFlagged, hasAnyDate,
    acctMean, acctVar, acctAmounts, rapidCount, acctDates, sortAsc, insertAsc,
    deltas, weekday, recsC3, mkNullA, cfgOff, List.countP, List.countP.go]

/-- C3 amended: with both thresholds 0, an empty risky-merchant list and
every timestamp null, the four gated detectors are disabled, and the
engine's output is exactly the verdict of the always-active
statistical-outlier detector on every record of the (unchanged) batch —
which can be a non-zero number of flags. -/
theorem C3_only_outlier_when_disabled (cfg : Config) (df : List Record)
    (h1 : cfg.user_threshold = 0) (h2 : cfg.rapid_txn_threshold = 0)
    (h3 : cfg.risky_merchants = []) (h4 : ∀ x ∈ df, x.date = none) :
    evalFlags cfg df = df.map fun r => (r, outlierFlagged df r) := by
  have hdf : dateFilter cfg df = df := dateFilter_of_no_dates cfg h4
  unfold evalFlags
  rw [hdf]
  apply List.map_congr_left
  intro r _
  simp [flagged, highValueFlagged, rapidFlagged, weekendFlagged, riskyFlagged,
    h1, h2, h3, hasAnyDate_eq_false h4]

/-- Witness for the amended C3: at the all-disabled configuration over the
six-record account-A batch, the engine output is the outlier verdict. -/
theorem C3_only_outlier_when_disabled_witness :
    evalFlags cfgOff recsC3 = recsC3.map fun r => (r, outlierFlagged recsC3 r) :=
  C3_only_outlier_when_disabled cfgOff recsC3 rfl rfl rfl (by decide)

/-- C4: the statistical-outlier detector (active unconditionally) flags a
record exactly when its amount exceeds the account mean plus twice the
account standard deviation — the real-valued test of the source, with the
sample deviation √acctVar — and a record that is the only one of its
account is never flagged by it, since its amount equals the account mean. -/
theorem C4_statistical_outlier :
    (∀ df r, outlierFlagged df r = true ↔
        (acctMean df r.account_id : ℝ)
            + 2 * Real.sqrt ((acctVar df r.account_id : ℝ)) < (r.amount : ℝ))
    ∧ (∀ df r, (df.filter fun x => x.account_id == r.account_id) = [r] →
        outlierFlagged df r = false) := by
  refine ⟨outlierFlagged_iff_sqrt, ?_⟩
  intro df r h
  simp [outlierFlagged, acctMean, acctAmounts, h]

/-- Witness for C4: a singleton account-A batch does not flag its record. -/
theorem C4_statistical_outlier_witness :
    outlierFlagged [recA1] recA1 = false :=
  C4_statistical_outlier.2 [recA1] recA1 (by decide)

/-- C2: on the input whose date window `[0, 0]` excludes its single record,
the filtered batch is empty and the model of the metrics block reports
total 0, `none` (pandas NaN, not an exception) for mean, max and min, a
flagged count of 0, and `none` for the flagged percentage — `none` here
models the `ZeroDivisionError` Python raises at the unguarded
`len(flagged_df)/total_txn*100` of line 129, contradicting the claimed
guard. -/
theorem C2_metrics_empty_batch :
    metrics cfgC2 [recC2] = ⟨0, none, none, none, 0, none⟩ := by
  decide
